import Mathlib

/-!
Verification of the connector/credential lifecycle tracker and its
snapshot wire formats, a shallow embedding of
src/backend/danswer/server/models.py together with the lifecycle
tracker described by the design document. Datetimes are modelled as
natural-number timestamps; Python dicts as association lists.
-/

namespace Danswer

/-- Status of an index attempt, the four-state machine of the design. -/
inductive IndexingStatus
  | not_started
  | in_progress
  | success
  | failed
deriving DecidableEq

/-- Status of a deletion attempt, the same four-state machine. -/
inductive DeletionStatus
  | not_started
  | in_progress
  | success
  | failed
deriving DecidableEq

/-- Input mode of a connector (danswer.connectors.models.InputType). -/
inductive InputType
  | load_state
  | poll
  | event
deriving DecidableEq

/-- Database record for one index attempt.  Fields are the ones read by
the snapshot constructors in models.py plus the pairing identity
(connector id, credential id) used by the tracker. -/
structure IndexAttempt where
  id : Nat
  connector_id : Nat
  credential_id : Nat
  status : IndexingStatus
  num_docs_indexed : Option Nat
  error_msg : Option String
  time_started : Option Nat
  time_updated : Nat
deriving DecidableEq

/-- Database record for one deletion attempt, scoped to a connector. -/
structure DeletionAttempt where
  id : Nat
  connector_id : Nat
  status : DeletionStatus
  error_msg : Option String
  num_docs_deleted : Nat
  time_updated : Nat
deriving DecidableEq

/-- Database record for a credential.  The payload is an opaque
key/value map; user ids are modelled as naturals. -/
structure Credential where
  id : Nat
  user_id : Option Nat
  credential_json : List (String × String)
  public_doc : Bool
  time_created : Nat
  time_updated : Nat
deriving DecidableEq

/-- One connector-to-credential association row, as navigated by
from_connector_db_model (association.credential.id). -/
structure CredentialAssociation where
  credential : Credential
deriving DecidableEq

/-- Database record for a connector. -/
structure Connector where
  id : Nat
  name : String
  source : String
  input_type : InputType
  connector_specific_config : List (String × String)
  refresh_freq : Option Nat
  credentials : List CredentialAssociation
  time_created : Nat
  time_updated : Nat
  disabled : Bool
deriving DecidableEq

/-- Model of datetime.isoformat: an injective rendering of a timestamp
as a string. -/
def isoformat (t : Nat) : String := toString t

/-- Model of the Python expression (x or 0) on an optional count: None
and 0 are falsy and yield 0, any other count yields itself. -/
def pyOrZero : Option Nat → Nat
  | none => 0
  | some k => k

/-- Character-list test that the first list starts the second. -/
def strStarts : List Char → List Char → Bool
  | [], _ => true
  | _ :: _, [] => false
  | a :: as, b :: bs => (a == b) && strStarts as bs

/-- Modelled from the spec: the secret classification over payload
keys.  The masking convention recognizes a key as secret when it
matches the configured secret-prefix; the configuration value
MASK_CREDENTIAL_PREFIX lives in danswer.configs.app_configs, which is
not part of the visible source, so it is kept as a parameter here
(the empty string being the falsy, unconfigured value). -/
def isSecretKey (maskPre : String) (k : String) : Bool :=
  strStarts maskPre.data k.data

/-- The fixed-length placeholder substituted for secret values. -/
def MASK_PLACEHOLDER : String := "****"

/-- Modelled from the spec: mask_credential_dict
(danswer.server.utils, not part of the visible source) replaces the
value of every payload key recognized as secret with a fixed-length
placeholder, preserving key names. -/
def mask_credential_dict (maskPre : String) (d : List (String × String)) :
    List (String × String) :=
  d.map fun kv => if isSecretKey maskPre kv.1 then (kv.1, MASK_PLACEHOLDER) else kv

/-- Wire format for one index attempt (models.py, IndexAttemptSnapshot). -/
structure IndexAttemptSnapshot where
  status : Option IndexingStatus
  num_docs_indexed : Nat
  error_msg : Option String
  time_started : Option String
  time_updated : String
deriving DecidableEq

/-- IndexAttemptSnapshot.from_index_attempt_db_model (models.py lines
178-190): status and error pass through, the count defaults to 0 when
falsy, times are rendered in ISO format with the start time optional. -/
def IndexAttemptSnapshot.from_index_attempt_db_model (a : IndexAttempt) :
    IndexAttemptSnapshot :=
  { status := some a.status
  , num_docs_indexed := pyOrZero a.num_docs_indexed
  , error_msg := a.error_msg
  , time_started :=
      match a.time_started with
      | some t => some (isoformat t)
      | none => none
  , time_updated := isoformat a.time_updated }

/-- Wire format for one deletion attempt (models.py, DeletionAttemptSnapshot). -/
structure DeletionAttemptSnapshot where
  connector_id : Nat
  status : DeletionStatus
  error_msg : Option String
  num_docs_deleted : Nat
deriving DecidableEq

/-- DeletionAttemptSnapshot.from_deletion_attempt_db_model (models.py
lines 199-208): every field passes through unchanged. -/
def DeletionAttemptSnapshot.from_deletion_attempt_db_model (d : DeletionAttempt) :
    DeletionAttemptSnapshot :=
  { connector_id := d.connector_id
  , status := d.status
  , error_msg := d.error_msg
  , num_docs_deleted := d.num_docs_deleted }

/-- Wire format for a connector (models.py, ConnectorSnapshot). -/
structure ConnectorSnapshot where
  name : String
  source : String
  input_type : InputType
  connector_specific_config : List (String × String)
  refresh_freq : Option Nat
  disabled : Bool
  id : Nat
  credential_ids : List Nat
  time_created : Nat
  time_updated : Nat
deriving DecidableEq

/-- ConnectorSnapshot.from_connector_db_model (models.py lines
226-241): fields pass through; credential ids are collected from the
association rows. -/
def ConnectorSnapshot.from_connector_db_model (c : Connector) : ConnectorSnapshot :=
  { id := c.id
  , name := c.name
  , source := c.source
  , input_type := c.input_type
  , connector_specific_config := c.connector_specific_config
  , refresh_freq := c.refresh_freq
  , credential_ids := c.credentials.map fun assoc => assoc.credential.id
  , time_created := c.time_created
  , time_updated := c.time_updated
  , disabled := c.disabled }

/-- Wire format for a credential (models.py, CredentialSnapshot). -/
structure CredentialSnapshot where
  credential_json : List (String × String)
  public_doc : Bool
  id : Nat
  user_id : Option Nat
  time_created : Nat
  time_updated : Nat
deriving DecidableEq

/-- CredentialSnapshot.from_credential_db_model (models.py lines
260-271): the payload is masked only when MASK_CREDENTIAL_PREFIX is
truthy (a nonempty string); otherwise the raw payload passes through. -/
def CredentialSnapshot.from_credential_db_model (maskPre : String) (c : Credential) :
    CredentialSnapshot :=
  { id := c.id
  , credential_json :=
      if maskPre ≠ "" then mask_credential_dict maskPre c.credential_json
      else c.credential_json
  , user_id := c.user_id
  , public_doc := c.public_doc
  , time_created := c.time_created
  , time_updated := c.time_updated }

/-- Structural error kinds returned synchronously by mutating
operations (design section 7). -/
inductive OpError
  | conflict
  | notFound
  | validationError
deriving DecidableEq

/-- Modelled from the spec: the persisted state of the Index Attempt
Tracker and the Deletion Attempt Tracker (sections 4.4 and 4.5); the
tracker implementation is not part of the visible source.  Attempt
histories are append-only lists; fresh identifiers come from the two
counters. -/
structure TrackerState where
  indexAttempts : List IndexAttempt
  deletionAttempts : List DeletionAttempt
  nextIndexAttemptId : Nat
  nextDeletionAttemptId : Nat
deriving DecidableEq

/-- The empty tracker: no attempts recorded yet. -/
def initState : TrackerState :=
  { indexAttempts := []
  , deletionAttempts := []
  , nextIndexAttemptId := 0
  , nextDeletionAttemptId := 0 }

/-- An index attempt of pairing (cid, crid) currently in progress. -/
def pairPred (cid crid : Nat) (a : IndexAttempt) : Bool :=
  decide (a.connector_id = cid ∧ a.credential_id = crid ∧
    a.status = IndexingStatus.in_progress)

/-- An index attempt of connector cid currently in progress. -/
def connPred (cid : Nat) (a : IndexAttempt) : Bool :=
  decide (a.connector_id = cid ∧ a.status = IndexingStatus.in_progress)

/-- A deletion attempt of connector cid currently in progress. -/
def delPred (cid : Nat) (d : DeletionAttempt) : Bool :=
  decide (d.connector_id = cid ∧ d.status = DeletionStatus.in_progress)

/-- Whether the pairing (cid, crid) currently has an index attempt in
progress. -/
def hasInProgressIndexForPairing (s : TrackerState) (cid crid : Nat) : Bool :=
  s.indexAttempts.any (pairPred cid crid)

/-- Whether any pairing of connector cid has an index attempt in
progress. -/
def hasInProgressIndexForConnector (s : TrackerState) (cid : Nat) : Bool :=
  s.indexAttempts.any (connPred cid)

/-- Whether connector cid has a deletion attempt in progress. -/
def hasInProgressDeletion (s : TrackerState) (cid : Nat) : Bool :=
  s.deletionAttempts.any (delPred cid)

/-- Number of in-progress index attempts recorded for one pairing. -/
def pairingInProgressCount (s : TrackerState) (cid crid : Nat) : Nat :=
  s.indexAttempts.countP (pairPred cid crid)

/-- The fresh in-progress attempt record appended by beginIndexing. -/
def newIndexAttempt (s : TrackerState) (cid crid t : Nat) : IndexAttempt :=
  { id := s.nextIndexAttemptId
  , connector_id := cid
  , credential_id := crid
  , status := IndexingStatus.in_progress
  , num_docs_indexed := none
  , error_msg := none
  , time_started := some t
  , time_updated := t }

/-- Modelled from the spec: beginIndexing (section 4.4, first
transition).  Fails with Conflict when the pairing already has an
in-progress attempt or the owning connector has an in-progress
deletion; otherwise appends a fresh in-progress attempt started at
time t. -/
def beginIndexing (s : TrackerState) (cid crid t : Nat) :
    Except OpError TrackerState :=
  if hasInProgressIndexForPairing s cid crid then .error .conflict
  else if hasInProgressDeletion s cid then .error .conflict
  else .ok { s with
    indexAttempts := s.indexAttempts ++ [newIndexAttempt s cid crid t]
    nextIndexAttemptId := s.nextIndexAttemptId + 1 }

/-- Elementwise effect of a progress update on attempt aid: the doc
count never decreases and the heartbeat timestamp advances. -/
def progressUpd (aid cnt t : Nat) (a : IndexAttempt) : IndexAttempt :=
  if a.id = aid ∧ a.status = IndexingStatus.in_progress then
    { a with
      num_docs_indexed := some (Nat.max (pyOrZero a.num_docs_indexed) cnt)
      time_updated := t }
  else a

/-- Elementwise effect of a success transition on attempt aid. -/
def successUpd (aid t : Nat) (a : IndexAttempt) : IndexAttempt :=
  if a.id = aid ∧ a.status = IndexingStatus.in_progress then
    { a with status := IndexingStatus.success, time_updated := t }
  else a

/-- Elementwise effect of a failure transition on attempt aid: records
the message, retains the partial doc count. -/
def failedUpd (aid : Nat) (msg : String) (t : Nat) (a : IndexAttempt) : IndexAttempt :=
  if a.id = aid ∧ a.status = IndexingStatus.in_progress then
    { a with
      status := IndexingStatus.failed
      error_msg := some msg
      time_updated := t }
  else a

/-- Whether attempt aid exists and is in progress. -/
def indexAttemptActive (s : TrackerState) (aid : Nat) : Bool :=
  s.indexAttempts.any fun a =>
    decide (a.id = aid ∧ a.status = IndexingStatus.in_progress)

/-- Modelled from the spec: the in-progress to in-progress progress
update (section 4.4, second transition). -/
def updateIndexProgress (s : TrackerState) (aid cnt t : Nat) :
    Except OpError TrackerState :=
  if indexAttemptActive s aid then
    .ok { s with indexAttempts := s.indexAttempts.map (progressUpd aid cnt t) }
  else .error .notFound

/-- Modelled from the spec: the in-progress to success transition
(section 4.4, third transition). -/
def markIndexSuccess (s : TrackerState) (aid t : Nat) :
    Except OpError TrackerState :=
  if indexAttemptActive s aid then
    .ok { s with indexAttempts := s.indexAttempts.map (successUpd aid t) }
  else .error .notFound

/-- Modelled from the spec: the in-progress to failed transition
(section 4.4, fourth transition); the recorded error message must be
non-empty. -/
def markIndexFailed (s : TrackerState) (aid : Nat) (msg : String) (t : Nat) :
    Except OpError TrackerState :=
  if msg = "" then .error .validationError
  else if indexAttemptActive s aid then
    .ok { s with indexAttempts := s.indexAttempts.map (failedUpd aid msg t) }
  else .error .notFound

/-- The fresh in-progress deletion record appended by beginDeletion. -/
def newDeletionAttempt (s : TrackerState) (cid t : Nat) : DeletionAttempt :=
  { id := s.nextDeletionAttemptId
  , connector_id := cid
  , status := DeletionStatus.in_progress
  , error_msg := none
  , num_docs_deleted := 0
  , time_updated := t }

/-- Modelled from the spec: beginDeletion (section 4.5).  Fails with
Conflict when any pairing of the connector has an in-progress index
attempt, or a deletion on the connector is already in progress. -/
def beginDeletion (s : TrackerState) (cid t : Nat) :
    Except OpError TrackerState :=
  if hasInProgressIndexForConnector s cid then .error .conflict
  else if hasInProgressDeletion s cid then .error .conflict
  else .ok { s with
    deletionAttempts := s.deletionAttempts ++ [newDeletionAttempt s cid t]
    nextDeletionAttemptId := s.nextDeletionAttemptId + 1 }

/-- Elementwise effect of a deletion progress update on attempt did. -/
def deletionProgressUpd (did cnt t : Nat) (d : DeletionAttempt) : DeletionAttempt :=
  if d.id = did ∧ d.status = DeletionStatus.in_progress then
    { d with
      num_docs_deleted := Nat.max d.num_docs_deleted cnt
      time_updated := t }
  else d

/-- Elementwise effect of a deletion success transition on attempt did. -/
def deletionSuccessUpd (did t : Nat) (d : DeletionAttempt) : DeletionAttempt :=
  if d.id = did ∧ d.status = DeletionStatus.in_progress then
    { d with status := DeletionStatus.success, time_updated := t }
  else d

/-- Elementwise effect of a deletion failure transition on attempt did. -/
def deletionFailedUpd (did : Nat) (msg : String) (t : Nat) (d : DeletionAttempt) :
    DeletionAttempt :=
  if d.id = did ∧ d.status = DeletionStatus.in_progress then
    { d with
      status := DeletionStatus.failed
      error_msg := some msg
      time_updated := t }
  else d

/-- Whether deletion attempt did exists and is in progress. -/
def deletionAttemptActive (s : TrackerState) (did : Nat) : Bool :=
  s.deletionAttempts.any fun d =>
    decide (d.id = did ∧ d.status = DeletionStatus.in_progress)

/-- Modelled from the spec: deletion progress update (section 4.5,
mirroring 4.4). -/
def updateDeletionProgress (s : TrackerState) (did cnt t : Nat) :
    Except OpError TrackerState :=
  if deletionAttemptActive s did then
    .ok { s with deletionAttempts := s.deletionAttempts.map (deletionProgressUpd did cnt t) }
  else .error .notFound

/-- Modelled from the spec: deletion success transition (section 4.5). -/
def markDeletionSuccess (s : TrackerState) (did t : Nat) :
    Except OpError TrackerState :=
  if deletionAttemptActive s did then
    .ok { s with deletionAttempts := s.deletionAttempts.map (deletionSuccessUpd did t) }
  else .error .notFound

/-- Modelled from the spec: deletion failure transition (section 4.5);
the recorded error message must be non-empty. -/
def markDeletionFailed (s : TrackerState) (did : Nat) (msg : String) (t : Nat) :
    Except OpError TrackerState :=
  if msg = "" then .error .validationError
  else if deletionAttemptActive s did then
    .ok { s with deletionAttempts := s.deletionAttempts.map (deletionFailedUpd did msg t) }
  else .error .notFound

/-- One mutating request against the two trackers. -/
inductive Cmd
  | beginIndexing (cid crid t : Nat)
  | updateIndexProgress (aid cnt t : Nat)
  | markIndexSuccess (aid t : Nat)
  | markIndexFailed (aid : Nat) (msg : String) (t : Nat)
  | beginDeletion (cid t : Nat)
  | updateDeletionProgress (did cnt t : Nat)
  | markDeletionSuccess (did t : Nat)
  | markDeletionFailed (did : Nat) (msg : String) (t : Nat)
deriving DecidableEq

/-- Dispatch one command to its operation. -/
def applyCmd (s : TrackerState) : Cmd → Except OpError TrackerState
  | .beginIndexing cid crid t => beginIndexing s cid crid t
  | .updateIndexProgress aid cnt t => updateIndexProgress s aid cnt t
  | .markIndexSuccess aid t => markIndexSuccess s aid t
  | .markIndexFailed aid msg t => markIndexFailed s aid msg t
  | .beginDeletion cid t => beginDeletion s cid t
  | .updateDeletionProgress did cnt t => updateDeletionProgress s did cnt t
  | .markDeletionSuccess did t => markDeletionSuccess s did t
  | .markDeletionFailed did msg t => markDeletionFailed s did msg t

/-- A failed command leaves the persisted state unchanged (errors are
returned synchronously, never half-applied). -/
def stepCmd (s : TrackerState) (c : Cmd) : TrackerState :=
  match applyCmd s c with
  | .ok s2 => s2
  | .error _ => s

/-- Run a sequence of commands from a starting state. -/
def runCmds (s : TrackerState) (cs : List Cmd) : TrackerState :=
  cs.foldl stepCmd s

/-- At most one index attempt per pairing is in progress. -/
def AtMostOneInProgress (s : TrackerState) : Prop :=
  ∀ cid crid, pairingInProgressCount s cid crid ≤ 1

/-- No connector has an in-progress deletion attempt and an
in-progress index attempt on one of its pairings at once. -/
def IndexDeletionExclusive (s : TrackerState) : Prop :=
  ∀ cid, ¬(hasInProgressIndexForConnector s cid = true ∧
           hasInProgressDeletion s cid = true)

/-- Every recorded index attempt carries an error message exactly when
its status is failed, and the message is then non-empty. -/
def ErrorIffFailed (s : TrackerState) : Prop :=
  ∀ a ∈ s.indexAttempts,
    (a.error_msg ≠ none ↔ a.status = IndexingStatus.failed) ∧
    ∀ m, a.error_msg = some m → m ≠ ""

/-- The tracker invariants, preserved by every command. -/
def TrackerInv (s : TrackerState) : Prop :=
  AtMostOneInProgress s ∧ IndexDeletionExclusive s ∧ ErrorIffFailed s

/-- Sort key deciding which of two attempts is the more recent: the
greater start timestamp, ties broken by the greater identifier
(section 4.4, last transition). -/
def attemptAfter (a b : IndexAttempt) : Bool :=
  decide (pyOrZero a.time_started < pyOrZero b.time_started ∨
    (pyOrZero a.time_started = pyOrZero b.time_started ∧ a.id < b.id))

/-- The most recent attempt of a list, by the rule above. -/
def latestOf (l : List IndexAttempt) : Option IndexAttempt :=
  l.foldl
    (fun acc a =>
      match acc with
      | none => some a
      | some c => if attemptAfter c a then some a else some c)
    none

/-- All index attempts recorded for one pairing. -/
def attemptsFor (s : TrackerState) (cid crid : Nat) : List IndexAttempt :=
  s.indexAttempts.filter fun a =>
    decide (a.connector_id = cid ∧ a.credential_id = crid)

/-- The most recent index attempt of a pairing, if any. -/
def latestIndexAttempt (s : TrackerState) (cid crid : Nat) : Option IndexAttempt :=
  latestOf (attemptsFor s cid crid)

/-- Start timestamp of the most recent attempt of the pairing that
reached success, if any. -/
def lastSuccessTime (s : TrackerState) (cid crid : Nat) : Option Nat :=
  match latestOf ((attemptsFor s cid crid).filter fun a =>
      decide (a.status = IndexingStatus.success)) with
  | some a => a.time_started
  | none => none

/-- Full deletion history of a connector, most recent first. -/
def deletionAttemptsFor (s : TrackerState) (cid : Nat) : List DeletionAttempt :=
  (s.deletionAttempts.filter fun d => decide (d.connector_id = cid)).reverse

/-- Derived read view combining connector, credential and the two
attempt trackers (models.py, ConnectorIndexingStatus). -/
structure ConnectorIndexingStatus where
  connector : ConnectorSnapshot
  credential : CredentialSnapshot
  owner : String
  public_doc : Bool
  last_status : Option IndexingStatus
  last_success : Option Nat
  docs_indexed : Nat
  error_msg : Option String
  latest_index_attempt : Option IndexAttemptSnapshot
  deletion_attempts : List DeletionAttemptSnapshot
  is_deletable : Bool
deriving DecidableEq

/-- Modelled from the spec: the Status Aggregator snapshot (section
4.6); the aggregation code is not part of the visible source.  Last
status, doc count and error come from the latest attempt of the
pairing; last success from the most recent successful attempt;
deletion history is ordered most recent first; is_deletable holds
exactly when nothing is in progress for the pairing or its connector;
the credential is exposed through the masked view. -/
def statusSnapshot (maskPre : String) (s : TrackerState) (conn : Connector)
    (cred : Credential) (owner : String) : ConnectorIndexingStatus :=
  let latest := latestIndexAttempt s conn.id cred.id
  { connector := ConnectorSnapshot.from_connector_db_model conn
  , credential := CredentialSnapshot.from_credential_db_model maskPre cred
  , owner := owner
  , public_doc := cred.public_doc
  , last_status := latest.map fun a => a.status
  , last_success := lastSuccessTime s conn.id cred.id
  , docs_indexed :=
      match latest with
      | some a => pyOrZero a.num_docs_indexed
      | none => 0
  , error_msg :=
      match latest with
      | some a => a.error_msg
      | none => none
  , latest_index_attempt := latest.map IndexAttemptSnapshot.from_index_attempt_db_model
  , deletion_attempts :=
      (deletionAttemptsFor s conn.id).map DeletionAttemptSnapshot.from_deletion_attempt_db_model
  , is_deletable :=
      !hasInProgressIndexForPairing s conn.id cred.id &&
      !hasInProgressDeletion s conn.id }

/-- Concrete successful index attempt used to instantiate theorems. -/
def aEx : IndexAttempt :=
  { id := 0
  , connector_id := 1
  , credential_id := 2
  , status := IndexingStatus.success
  , num_docs_indexed := some 50
  , error_msg := none
  , time_started := some 10
  , time_updated := 20 }

/-- Concrete index attempt with no progress reported yet. -/
def aFreshEx : IndexAttempt :=
  { id := 3
  , connector_id := 1
  , credential_id := 2
  , status := IndexingStatus.in_progress
  , num_docs_indexed := none
  , error_msg := none
  , time_started := none
  , time_updated := 4 }

/-- Concrete terminal deletion attempt. -/
def dEx : DeletionAttempt :=
  { id := 0
  , connector_id := 1
  , status := DeletionStatus.success
  , error_msg := none
  , num_docs_deleted := 7
  , time_updated := 3 }

/-- Concrete credential whose payload holds one secret and one plain
key under the secret-prefix convention with configured value
MASKPRE_EX. -/
def credEx : Credential :=
  { id := 2
  , user_id := none
  , credential_json := [("skey", "hunter2"), ("url", "u1")]
  , public_doc := true
  , time_created := 0
  , time_updated := 0 }

/-- The concrete configured secret-prefix value used in instances. -/
def MASKPRE_EX : String := "sk"

/-- Concrete connector paired with credEx. -/
def connEx : Connector :=
  { id := 1
  , name := "c1"
  , source := "web"
  , input_type := InputType.poll
  , connector_specific_config := []
  , refresh_freq := some 3600
  , credentials := [{ credential := credEx }]
  , time_created := 0
  , time_updated := 0
  , disabled := false }

/-- Concrete tracker state holding the one terminal attempt aEx. -/
def sEx : TrackerState :=
  { indexAttempts := [aEx]
  , deletionAttempts := []
  , nextIndexAttemptId := 1
  , nextDeletionAttemptId := 0 }

/-- Concrete tracker state holding the one in-progress attempt
aFreshEx. -/
def sFreshEx : TrackerState :=
  { indexAttempts := [aFreshEx]
  , deletionAttempts := []
  , nextIndexAttemptId := 4
  , nextDeletionAttemptId := 0 }

/-- The record aFreshEx after failing with message down at time 7. -/
def aFreshFailedEx : IndexAttempt :=
  { id := 3
  , connector_id := 1
  , credential_id := 2
  , status := IndexingStatus.failed
  , num_docs_indexed := none
  , error_msg := some "down"
  , time_started := none
  , time_updated := 7 }

/-- The state sFreshEx after failing its attempt with message down at
time 7. -/
def sFailEx2 : TrackerState :=
  { indexAttempts := [aFreshFailedEx]
  , deletionAttempts := []
  , nextIndexAttemptId := 4
  , nextDeletionAttemptId := 0 }

/-- The failed attempt record produced by starting an attempt on
pairing (0, 0) at time 0 and failing it with message boom at time 1. -/
def aFailedEx : IndexAttempt :=
  { id := 0
  , connector_id := 0
  , credential_id := 0
  , status := IndexingStatus.failed
  , num_docs_indexed := none
  , error_msg := some "boom"
  , time_started := some 0
  , time_updated := 1 }

/-- Claim C1 as stated is false: with a falsy masking configuration
(empty secret-prefix) the snapshot built by from_credential_db_model
returns the original value of a payload key matching the configured
secret-prefix convention (every key matches the empty configured
value), so secrets are not masked regardless of configuration. -/
theorem c1_counterexample :
    isSecretKey "" "skey" = true ∧
    ("skey", "hunter2") ∈ credEx.credential_json ∧
    ("skey", "hunter2") ∈
      (CredentialSnapshot.from_credential_db_model "" credEx).credential_json := by
  refine ⟨by decide, by decide, by decide⟩

/-- Claim C1 (amended): whenever the masking configuration is truthy
(a nonempty secret-prefix), every payload entry of the snapshot built
by from_credential_db_model whose key matches the configured
secret-prefix convention carries the fixed placeholder, never the
original secret value. -/
theorem c1_amended (maskPre : String) (c : Credential) (hne : maskPre ≠ "")
    (kv : String × String)
    (hmem : kv ∈ (CredentialSnapshot.from_credential_db_model maskPre c).credential_json)
    (hsec : isSecretKey maskPre kv.1 = true) : kv.2 = MASK_PLACEHOLDER := by
  simp only [CredentialSnapshot.from_credential_db_model, if_pos hne,
    mask_credential_dict, List.mem_map] at hmem
  obtain ⟨ab, _hab, hkv⟩ := hmem
  by_cases h : isSecretKey maskPre ab.1 = true
  · rw [if_pos h] at hkv
    subst hkv
    rfl
  · rw [if_neg h] at hkv
    subst hkv
    exact absurd hsec h

/-- Witness for c1_amended at the concrete configured value MASKPRE_EX
and credential credEx. -/
theorem c1_witness :
    (MASKPRE_EX ≠ "") ∧
    ("skey", MASK_PLACEHOLDER) ∈
      (CredentialSnapshot.from_credential_db_model MASKPRE_EX credEx).credential_json ∧
    isSecretKey MASKPRE_EX "skey" = true ∧
    ("skey", MASK_PLACEHOLDER).2 = MASK_PLACEHOLDER :=
  ⟨by decide, by decide, by decide,
    c1_amended MASKPRE_EX credEx (by decide) ("skey", MASK_PLACEHOLDER)
      (by decide) (by decide)⟩

/-- Claim C3: for every input payload, the masked credential view
keeps exactly the keys of the input in order, and positionally
replaces the value of every key recognized as secret with the fixed
placeholder while leaving every non-secret entry unchanged. -/
theorem c3 (maskPre : String) (d : List (String × String)) :
    (mask_credential_dict maskPre d).map Prod.fst = d.map Prod.fst ∧
    ∀ i (h : i < d.length) (h2 : i < (mask_credential_dict maskPre d).length),
      (mask_credential_dict maskPre d).get ⟨i, h2⟩ =
        if isSecretKey maskPre (d.get ⟨i, h⟩).1
        then ((d.get ⟨i, h⟩).1, MASK_PLACEHOLDER)
        else d.get ⟨i, h⟩ := by
  constructor
  · simp only [mask_credential_dict, List.map_map]
    apply List.map_congr_left
    intro kv _
    by_cases h : isSecretKey maskPre kv.1 = true
    · simp [h]
    · simp [h]
  · intro i h h2
    simp only [mask_credential_dict, List.get_eq_getElem, List.getElem_map]

/-- Witness for c3 at the payload of credEx and index 0, the secret
entry. -/
theorem c3_witness :
    (0 < credEx.credential_json.length) ∧
    (0 < (mask_credential_dict MASKPRE_EX credEx.credential_json).length) ∧
    (mask_credential_dict MASKPRE_EX credEx.credential_json).get ⟨0, by decide⟩ =
      ("skey", MASK_PLACEHOLDER) := by
  refine ⟨by decide, by decide, ?_⟩
  have h := (c3 MASKPRE_EX credEx.credential_json).2 0 (by decide) (by decide)
  rw [h]
  decide

/-- Claim C9: the snapshot built by from_index_attempt_db_model
renders the start time as the ISO string of the start timestamp when
it is set and as absent otherwise, while the last-updated time is
always the ISO string of the update timestamp. -/
theorem c9 (a : IndexAttempt) :
    (∀ t, a.time_started = some t →
      (IndexAttemptSnapshot.from_index_attempt_db_model a).time_started =
        some (isoformat t)) ∧
    (a.time_started = none →
      (IndexAttemptSnapshot.from_index_attempt_db_model a).time_started = none) ∧
    (IndexAttemptSnapshot.from_index_attempt_db_model a).time_updated =
      isoformat a.time_updated := by
  refine ⟨?_, ?_, rfl⟩
  · intro t ht
    simp [IndexAttemptSnapshot.from_index_attempt_db_model, ht]
  · intro ht
    simp [IndexAttemptSnapshot.from_index_attempt_db_model, ht]

/-- Witness for c9 at the concrete attempt aEx, whose start timestamp
is set to 10. -/
theorem c9_witness :
    (IndexAttemptSnapshot.from_index_attempt_db_model aEx).time_started =
      some (isoformat 10) :=
  (c9 aEx).1 10 rfl

/-- Claim C10: when the recorded documents-indexed count is absent,
from_index_attempt_db_model reports the count 0 in the snapshot. -/
theorem c10 (a : IndexAttempt) (h : a.num_docs_indexed = none) :
    (IndexAttemptSnapshot.from_index_attempt_db_model a).num_docs_indexed = 0 := by
  simp [IndexAttemptSnapshot.from_index_attempt_db_model, h, pyOrZero]

/-- Witness for c10 at the concrete attempt aFreshEx, which has no
count recorded. -/
theorem c10_witness :
    aFreshEx.num_docs_indexed = none ∧
    (IndexAttemptSnapshot.from_index_attempt_db_model aFreshEx).num_docs_indexed = 0 :=
  ⟨rfl, c10 aFreshEx rfl⟩

/-- Claim C2: the snapshot wire mapping is lossless on the defined
fields.  The index-attempt snapshot returns the original status, error
and (when defined) doc count; the deletion-attempt snapshot returns
every field unchanged; the aggregate status re-derives last_status,
error_msg and docs_indexed from the latest attempt record of the
pairing, last_success from the most recent successful attempt, and
is_deletable from the in-progress state of the trackers. -/
theorem c2 (ia : IndexAttempt) (da : DeletionAttempt) (n : Nat)
    (maskPre : String) (s : TrackerState) (conn : Connector) (cred : Credential)
    (owner : String) (la : IndexAttempt) :
    ((IndexAttemptSnapshot.from_index_attempt_db_model ia).status = some ia.status ∧
     (IndexAttemptSnapshot.from_index_attempt_db_model ia).error_msg = ia.error_msg ∧
     (ia.num_docs_indexed = some n →
       (IndexAttemptSnapshot.from_index_attempt_db_model ia).num_docs_indexed = n)) ∧
    ((DeletionAttemptSnapshot.from_deletion_attempt_db_model da).connector_id =
       da.connector_id ∧
     (DeletionAttemptSnapshot.from_deletion_attempt_db_model da).status = da.status ∧
     (DeletionAttemptSnapshot.from_deletion_attempt_db_model da).error_msg =
       da.error_msg ∧
     (DeletionAttemptSnapshot.from_deletion_attempt_db_model da).num_docs_deleted =
       da.num_docs_deleted) ∧
    (latestIndexAttempt s conn.id cred.id = some la →
      (statusSnapshot maskPre s conn cred owner).last_status = some la.status ∧
      (statusSnapshot maskPre s conn cred owner).error_msg = la.error_msg ∧
      (la.num_docs_indexed = some n →
        (statusSnapshot maskPre s conn cred owner).docs_indexed = n)) ∧
    (statusSnapshot maskPre s conn cred owner).last_success =
      lastSuccessTime s conn.id cred.id ∧
    (statusSnapshot maskPre s conn cred owner).is_deletable =
      (!hasInProgressIndexForPairing s conn.id cred.id &&
       !hasInProgressDeletion s conn.id) := by
  refine ⟨⟨rfl, rfl, ?_⟩, ⟨rfl, rfl, rfl, rfl⟩, ?_, rfl, rfl⟩
  · intro h
    simp [IndexAttemptSnapshot.from_index_attempt_db_model, h, pyOrZero]
  · intro hla
    refine ⟨?_, ?_, ?_⟩
    · simp [statusSnapshot, hla]
    · simp [statusSnapshot, hla]
    · intro h
      simp [statusSnapshot, hla, pyOrZero, h]

/-- Witness for c2 at the concrete records aEx, dEx and state sEx. -/
theorem c2_witness :
    aEx.num_docs_indexed = some 50 ∧
    latestIndexAttempt sEx connEx.id credEx.id = some aEx ∧
    (IndexAttemptSnapshot.from_index_attempt_db_model aEx).num_docs_indexed = 50 ∧
    (statusSnapshot MASKPRE_EX sEx connEx credEx "owner").last_status =
      some IndexingStatus.success ∧
    (statusSnapshot MASKPRE_EX sEx connEx credEx "owner").docs_indexed = 50 := by
  have h := c2 aEx dEx 50 MASKPRE_EX sEx connEx credEx "owner" aEx
  refine ⟨rfl, by decide, h.1.2.2 rfl, ?_, (h.2.2.1 (by decide)).2.2 rfl⟩
  exact (h.2.2.1 (by decide)).1

/-- Claim C6: the is_deletable flag of the aggregate status holds
exactly when no index attempt of the pairing is in progress and no
deletion attempt of the owning connector is in progress. -/
theorem c6 (maskPre : String) (s : TrackerState) (conn : Connector)
    (cred : Credential) (owner : String) :
    (statusSnapshot maskPre s conn cred owner).is_deletable = true ↔
      ((¬ ∃ a, a ∈ s.indexAttempts ∧ a.connector_id = conn.id ∧
          a.credential_id = cred.id ∧ a.status = IndexingStatus.in_progress) ∧
       (¬ ∃ d, d ∈ s.deletionAttempts ∧ d.connector_id = conn.id ∧
          d.status = DeletionStatus.in_progress)) := by
  simp [statusSnapshot, hasInProgressIndexForPairing, hasInProgressDeletion,
    pairPred, delPred, List.any_eq_true, and_assoc]

/-- Counting after an elementwise update that cannot create matches is
no larger. -/
theorem countP_map_le_of_imp {α : Type} (l : List α) (f : α → α)
    (p : α → Bool) (h : ∀ a, p (f a) = true → p a = true) :
    (l.map f).countP p ≤ l.countP p := by
  rw [List.countP_map]
  exact List.countP_mono_left fun x _ hx => h x hx

/-- Counting is unchanged by an elementwise update that preserves the
predicate. -/
theorem countP_map_eq_of_eq {α : Type} (l : List α) (f : α → α)
    (p : α → Bool) (h : ∀ a, p (f a) = p a) :
    (l.map f).countP p = l.countP p := by
  rw [List.countP_map]
  congr 1
  funext a
  exact h a

/-- A match surviving an elementwise update that cannot create matches
was already a match. -/
theorem any_map_imp {α : Type} (l : List α) (f : α → α) (p : α → Bool)
    (h : ∀ a, p (f a) = true → p a = true) :
    (l.map f).any p = true → l.any p = true := by
  simp only [List.any_map, List.any_eq_true, Function.comp_apply]
  rintro ⟨x, hx, hpx⟩
  exact ⟨x, hx, h x hpx⟩

/-- A progress update leaves every field but the count and heartbeat
unchanged. -/
theorem progressUpd_profile (aid cnt t : Nat) (a : IndexAttempt) :
    (progressUpd aid cnt t a).connector_id = a.connector_id ∧
    (progressUpd aid cnt t a).credential_id = a.credential_id ∧
    (progressUpd aid cnt t a).id = a.id ∧
    (progressUpd aid cnt t a).status = a.status ∧
    (progressUpd aid cnt t a).error_msg = a.error_msg ∧
    pyOrZero a.num_docs_indexed ≤ pyOrZero (progressUpd aid cnt t a).num_docs_indexed := by
  unfold progressUpd
  split
  · exact ⟨rfl, rfl, rfl, rfl, rfl, Nat.le_max_left _ _⟩
  · exact ⟨rfl, rfl, rfl, rfl, rfl, Nat.le_refl _⟩

/-- A success transition either leaves the record unchanged or turns
an in-progress record into a success with all other fields kept. -/
theorem successUpd_cases (aid t : Nat) (a : IndexAttempt) :
    successUpd aid t a = a ∨
    (a.status = IndexingStatus.in_progress ∧
      successUpd aid t a =
        { a with status := IndexingStatus.success, time_updated := t }) := by
  unfold successUpd
  split
  · next h => exact Or.inr ⟨h.2, rfl⟩
  · exact Or.inl rfl

/-- A failure transition either leaves the record unchanged or turns
an in-progress record into a failed one carrying the message, with
count and start time kept. -/
theorem failedUpd_cases (aid : Nat) (msg : String) (t : Nat) (a : IndexAttempt) :
    failedUpd aid msg t a = a ∨
    (a.status = IndexingStatus.in_progress ∧
      failedUpd aid msg t a =
        { a with
          status := IndexingStatus.failed
          error_msg := some msg
          time_updated := t }) := by
  unfold failedUpd
  split
  · next h => exact Or.inr ⟨h.2, rfl⟩
  · exact Or.inl rfl

/-- A deletion progress update preserves connector and status. -/
theorem deletionProgressUpd_profile (did cnt t : Nat) (d : DeletionAttempt) :
    (deletionProgressUpd did cnt t d).connector_id = d.connector_id ∧
    (deletionProgressUpd did cnt t d).status = d.status := by
  unfold deletionProgressUpd
  split
  · exact ⟨rfl, rfl⟩
  · exact ⟨rfl, rfl⟩

/-- A deletion success transition preserves the connector, and a
record in progress afterwards was in progress before. -/
theorem deletionSuccessUpd_profile (did t : Nat) (d : DeletionAttempt) :
    (deletionSuccessUpd did t d).connector_id = d.connector_id ∧
    ((deletionSuccessUpd did t d).status = DeletionStatus.in_progress →
      d.status = DeletionStatus.in_progress) := by
  unfold deletionSuccessUpd
  split
  · next h => exact ⟨rfl, fun habs => by cases habs⟩
  · exact ⟨rfl, fun h => h⟩

/-- A deletion failure transition preserves the connector, and a
record in progress afterwards was in progress before. -/
theorem deletionFailedUpd_profile (did : Nat) (msg : String) (t : Nat)
    (d : DeletionAttempt) :
    (deletionFailedUpd did msg t d).connector_id = d.connector_id ∧
    ((deletionFailedUpd did msg t d).status = DeletionStatus.in_progress →
      d.status = DeletionStatus.in_progress) := by
  unfold deletionFailedUpd
  split
  · next h => exact ⟨rfl, fun habs => by cases habs⟩
  · exact ⟨rfl, fun h => h⟩

/-- An elementwise update of the index history that preserves pairing
identity, cannot create in-progress records, and transports the error
discipline, preserves all tracker invariants. -/
theorem trackerInv_map_index (s : TrackerState) (f : IndexAttempt → IndexAttempt)
    (hconn : ∀ a, (f a).connector_id = a.connector_id)
    (hcred : ∀ a, (f a).credential_id = a.credential_id)
    (hst : ∀ a, (f a).status = IndexingStatus.in_progress →
      a.status = IndexingStatus.in_progress)
    (herr : ∀ a ∈ s.indexAttempts,
      (((a.error_msg ≠ none ↔ a.status = IndexingStatus.failed) ∧
        ∀ m, a.error_msg = some m → m ≠ "") →
      (((f a).error_msg ≠ none ↔ (f a).status = IndexingStatus.failed) ∧
        ∀ m, (f a).error_msg = some m → m ≠ "")))
    (h : TrackerInv s) :
    TrackerInv { s with indexAttempts := s.indexAttempts.map f } := by
  obtain ⟨h1, h2, h3⟩ := h
  have hpair : ∀ cid crid a, pairPred cid crid (f a) = true → pairPred cid crid a = true := by
    intro cid crid a hp
    simp only [pairPred, decide_eq_true_eq] at hp ⊢
    exact ⟨hconn a ▸ hp.1, hcred a ▸ hp.2.1, hst a hp.2.2⟩
  have hco : ∀ cid a, connPred cid (f a) = true → connPred cid a = true := by
    intro cid a hp
    simp only [connPred, decide_eq_true_eq] at hp ⊢
    exact ⟨hconn a ▸ hp.1, hst a hp.2⟩
  refine ⟨?_, ?_, ?_⟩
  · intro cid crid
    calc (s.indexAttempts.map f).countP (pairPred cid crid)
        ≤ s.indexAttempts.countP (pairPred cid crid) :=
          countP_map_le_of_imp _ _ _ (hpair cid crid)
      _ ≤ 1 := h1 cid crid
  · intro cid hand
    exact h2 cid ⟨any_map_imp _ _ _ (hco cid) hand.1, hand.2⟩
  · intro a' ha'
    rw [List.mem_map] at ha'
    obtain ⟨a, ha, rfl⟩ := ha'
    exact herr a ha (h3 a ha)

/-- An elementwise update of the deletion history that preserves the
connector and cannot create in-progress records preserves all tracker
invariants. -/
theorem trackerInv_map_deletion (s : TrackerState) (g : DeletionAttempt → DeletionAttempt)
    (hconn : ∀ d, (g d).connector_id = d.connector_id)
    (hst : ∀ d, (g d).status = DeletionStatus.in_progress →
      d.status = DeletionStatus.in_progress)
    (h : TrackerInv s) :
    TrackerInv { s with deletionAttempts := s.deletionAttempts.map g } := by
  obtain ⟨h1, h2, h3⟩ := h
  have hdp : ∀ cid d, delPred cid (g d) = true → delPred cid d = true := by
    intro cid d hp
    simp only [delPred, decide_eq_true_eq] at hp ⊢
    exact ⟨hconn d ▸ hp.1, hst d hp.2⟩
  refine ⟨h1, ?_, h3⟩
  intro cid hand
  exact h2 cid ⟨hand.1, any_map_imp _ _ _ (hdp cid) hand.2⟩

/-- Appending the fresh attempt created by a non-conflicting
beginIndexing preserves all tracker invariants. -/
theorem trackerInv_beginIndexing_ok (s : TrackerState) (cid crid t : Nat)
    (hg1 : hasInProgressIndexForPairing s cid crid = false)
    (hg2 : hasInProgressDeletion s cid = false)
    (h : TrackerInv s) :
    TrackerInv { s with
      indexAttempts := s.indexAttempts ++ [newIndexAttempt s cid crid t]
      nextIndexAttemptId := s.nextIndexAttemptId + 1 } := by
  obtain ⟨h1, h2, h3⟩ := h
  refine ⟨?_, ?_, ?_⟩
  · intro cid' crid'
    show (s.indexAttempts ++ [newIndexAttempt s cid crid t]).countP (pairPred cid' crid') ≤ 1
    rw [List.countP_append]
    by_cases hc : cid' = cid ∧ crid' = crid
    · obtain ⟨rfl, rfl⟩ := hc
      have hz : s.indexAttempts.countP (pairPred cid' crid') = 0 := by
        rw [List.countP_eq_zero]
        intro a ha hpa
        have : hasInProgressIndexForPairing s cid' crid' = true :=
          List.any_eq_true.mpr ⟨a, ha, hpa⟩
        rw [hg1] at this
        cases this
      have hone : ([newIndexAttempt s cid' crid' t] : List IndexAttempt).countP
          (pairPred cid' crid') ≤ 1 := by
        rw [List.countP_cons, List.countP_nil]
        split <;> omega
      omega
    · have hnw : pairPred cid' crid' (newIndexAttempt s cid crid t) = false := by
        simp only [pairPred, newIndexAttempt, decide_eq_false_iff_not]
        intro hq
        exact hc ⟨hq.1.symm, hq.2.1.symm⟩
      have : ([newIndexAttempt s cid crid t] : List IndexAttempt).countP
          (pairPred cid' crid') = 0 := by
        rw [List.countP_eq_zero]
        intro a ha
        rw [List.mem_singleton] at ha
        subst ha
        simp [hnw]
      rw [this]
      have hle : List.countP (pairPred cid' crid') s.indexAttempts ≤ 1 := h1 cid' crid'
      omega
  · intro cid' hand
    have hidx : (s.indexAttempts ++ [newIndexAttempt s cid crid t]).any (connPred cid') = true :=
      hand.1
    have hdel : hasInProgressDeletion s cid' = true := hand.2
    rw [List.any_append] at hidx
    rw [Bool.or_eq_true] at hidx
    rcases hidx with hidx | hidx
    · exact h2 cid' ⟨hidx, hdel⟩
    · have : connPred cid' (newIndexAttempt s cid crid t) = true := by
        rw [List.any_eq_true] at hidx
        obtain ⟨a, ha, hpa⟩ := hidx
        rw [List.mem_singleton] at ha
        subst ha
        exact hpa
      simp only [connPred, newIndexAttempt, decide_eq_true_eq] at this
      obtain ⟨hcid, _⟩ := this
      subst hcid
      rw [hg2] at hdel
      cases hdel
  · intro a ha
    rw [List.mem_append] at ha
    rcases ha with ha | ha
    · exact h3 a ha
    · rw [List.mem_singleton] at ha
      subst ha
      refine ⟨?_, ?_⟩
      · simp [newIndexAttempt]
      · intro m hm
        simp [newIndexAttempt] at hm


/-- Appending the fresh attempt created by a non-conflicting
beginDeletion preserves all tracker invariants. -/
theorem trackerInv_beginDeletion_ok (s : TrackerState) (cid t : Nat)
    (hg1 : hasInProgressIndexForConnector s cid = false)
    (h : TrackerInv s) :
    TrackerInv { s with
      deletionAttempts := s.deletionAttempts ++ [newDeletionAttempt s cid t]
      nextDeletionAttemptId := s.nextDeletionAttemptId + 1 } := by
  obtain ⟨h1, h2, h3⟩ := h
  refine ⟨h1, ?_, h3⟩
  intro cid' hand
  have hidx : hasInProgressIndexForConnector s cid' = true := hand.1
  have hdel : (s.deletionAttempts ++ [newDeletionAttempt s cid t]).any (delPred cid') = true :=
    hand.2
  rw [List.any_append, Bool.or_eq_true] at hdel
  rcases hdel with hdel | hdel
  · exact h2 cid' ⟨hidx, hdel⟩
  · have hnw : delPred cid' (newDeletionAttempt s cid t) = true := by
      rw [List.any_eq_true] at hdel
      obtain ⟨d, hd, hpd⟩ := hdel
      rw [List.mem_singleton] at hd
      subst hd
      exact hpd
    simp only [delPred, newDeletionAttempt, decide_eq_true_eq] at hnw
    obtain ⟨hcid, _⟩ := hnw
    subst hcid
    rw [hg1] at hidx
    cases hidx

/-- The empty tracker satisfies all invariants. -/
theorem trackerInv_init : TrackerInv initState := by
  refine ⟨?_, ?_, ?_⟩
  · intro cid crid
    simp [pairingInProgressCount, initState]
  · intro cid hand
    have h1 := hand.1
    simp [hasInProgressIndexForConnector, initState] at h1
  · intro a ha
    simp [initState] at ha

/-- Every command preserves the tracker invariants. -/
theorem trackerInv_stepCmd (s : TrackerState) (c : Cmd) (h : TrackerInv s) :
    TrackerInv (stepCmd s c) := by
  cases c with
  | beginIndexing cid crid t =>
    cases hb1 : hasInProgressIndexForPairing s cid crid with
    | true =>
      simp only [stepCmd, applyCmd, beginIndexing, hb1, if_true]
      exact h
    | false =>
      cases hb2 : hasInProgressDeletion s cid with
      | true =>
        simp only [stepCmd, applyCmd, beginIndexing, hb1, hb2, if_true, Bool.false_eq_true,
          if_false]
        exact h
      | false =>
        have hs : stepCmd s (Cmd.beginIndexing cid crid t) = { s with
            indexAttempts := s.indexAttempts ++ [newIndexAttempt s cid crid t]
            nextIndexAttemptId := s.nextIndexAttemptId + 1 } := by
          simp [stepCmd, applyCmd, beginIndexing, hb1, hb2]
        rw [hs]
        exact trackerInv_beginIndexing_ok s cid crid t hb1 hb2 h
  | updateIndexProgress aid cnt t =>
    cases hb : indexAttemptActive s aid with
    | false =>
      simp only [stepCmd, applyCmd, updateIndexProgress, hb, Bool.false_eq_true, if_false]
      exact h
    | true =>
      have hs : stepCmd s (Cmd.updateIndexProgress aid cnt t) =
          { s with indexAttempts := s.indexAttempts.map (progressUpd aid cnt t) } := by
        simp [stepCmd, applyCmd, updateIndexProgress, hb]
      rw [hs]
      refine trackerInv_map_index s _ ?_ ?_ ?_ ?_ h
      · intro a
        exact (progressUpd_profile aid cnt t a).1
      · intro a
        exact (progressUpd_profile aid cnt t a).2.1
      · intro a hsta
        rw [(progressUpd_profile aid cnt t a).2.2.2.1] at hsta
        exact hsta
      · intro a _ hprop
        obtain ⟨_, _, _, hst, herr, _⟩ := progressUpd_profile aid cnt t a
        rw [hst, herr]
        exact hprop
  | markIndexSuccess aid t =>
    cases hb : indexAttemptActive s aid with
    | false =>
      simp only [stepCmd, applyCmd, markIndexSuccess, hb, Bool.false_eq_true, if_false]
      exact h
    | true =>
      have hs : stepCmd s (Cmd.markIndexSuccess aid t) =
          { s with indexAttempts := s.indexAttempts.map (successUpd aid t) } := by
        simp [stepCmd, applyCmd, markIndexSuccess, hb]
      rw [hs]
      refine trackerInv_map_index s _ ?_ ?_ ?_ ?_ h
      · intro a
        rcases successUpd_cases aid t a with he | ⟨_, he⟩ <;> simp [he]
      · intro a
        rcases successUpd_cases aid t a with he | ⟨_, he⟩ <;> simp [he]
      · intro a hsta
        rcases successUpd_cases aid t a with he | ⟨hin, he⟩
        · rw [he] at hsta
          exact hsta
        · exact hin
      · intro a _ hprop
        rcases successUpd_cases aid t a with he | ⟨hin, he⟩
        · rw [he]
          exact hprop
        · rw [he]
          have hnone : a.error_msg = none := by
            by_contra hne
            have hfail := hprop.1.mp hne
            rw [hin] at hfail
            cases hfail
          constructor
          · simp [hnone]
          · intro m hm
            exact hprop.2 m hm
  | markIndexFailed aid msg t =>
    by_cases hmsg : msg = ""
    · simp only [stepCmd, applyCmd, markIndexFailed, hmsg, if_true]
      exact h
    · cases hb : indexAttemptActive s aid with
      | false =>
        simp only [stepCmd, applyCmd, markIndexFailed, hmsg, hb, Bool.false_eq_true,
          if_false, if_neg]
        exact h
      | true =>
        have hs : stepCmd s (Cmd.markIndexFailed aid msg t) =
            { s with indexAttempts := s.indexAttempts.map (failedUpd aid msg t) } := by
          simp [stepCmd, applyCmd, markIndexFailed, hmsg, hb]
        rw [hs]
        refine trackerInv_map_index s _ ?_ ?_ ?_ ?_ h
        · intro a
          rcases failedUpd_cases aid msg t a with he | ⟨_, he⟩ <;> simp [he]
        · intro a
          rcases failedUpd_cases aid msg t a with he | ⟨_, he⟩ <;> simp [he]
        · intro a hsta
          rcases failedUpd_cases aid msg t a with he | ⟨hin, he⟩
          · rw [he] at hsta
            exact hsta
          · exact hin
        · intro a _ hprop
          rcases failedUpd_cases aid msg t a with he | ⟨hin, he⟩
          · rw [he]
            exact hprop
          · rw [he]
            constructor
            · simp
            · intro m hm
              simp only [Option.some.injEq] at hm
              subst hm
              exact hmsg
  | beginDeletion cid t =>
    cases hb1 : hasInProgressIndexForConnector s cid with
    | true =>
      simp only [stepCmd, applyCmd, beginDeletion, hb1, if_true]
      exact h
    | false =>
      cases hb2 : hasInProgressDeletion s cid with
      | true =>
        simp only [stepCmd, applyCmd, beginDeletion, hb1, hb2, Bool.false_eq_true,
          if_false, if_true]
        exact h
      | false =>
        have hs : stepCmd s (Cmd.beginDeletion cid t) = { s with
            deletionAttempts := s.deletionAttempts ++ [newDeletionAttempt s cid t]
            nextDeletionAttemptId := s.nextDeletionAttemptId + 1 } := by
          simp [stepCmd, applyCmd, beginDeletion, hb1, hb2]
        rw [hs]
        exact trackerInv_beginDeletion_ok s cid t hb1 h
  | updateDeletionProgress did cnt t =>
    cases hb : deletionAttemptActive s did with
    | false =>
      simp only [stepCmd, applyCmd, updateDeletionProgress, hb, Bool.false_eq_true, if_false]
      exact h
    | true =>
      have hs : stepCmd s (Cmd.updateDeletionProgress did cnt t) =
          { s with deletionAttempts := s.deletionAttempts.map (deletionProgressUpd did cnt t) } := by
        simp [stepCmd, applyCmd, updateDeletionProgress, hb]
      rw [hs]
      refine trackerInv_map_deletion s _ ?_ ?_ h
      · intro d
        exact (deletionProgressUpd_profile did cnt t d).1
      · intro d hstd
        rw [(deletionProgressUpd_profile did cnt t d).2] at hstd
        exact hstd
  | markDeletionSuccess did t =>
    cases hb : deletionAttemptActive s did with
    | false =>
      simp only [stepCmd, applyCmd, markDeletionSuccess, hb, Bool.false_eq_true, if_false]
      exact h
    | true =>
      have hs : stepCmd s (Cmd.markDeletionSuccess did t) =
          { s with deletionAttempts := s.deletionAttempts.map (deletionSuccessUpd did t) } := by
        simp [stepCmd, applyCmd, markDeletionSuccess, hb]
      rw [hs]
      refine trackerInv_map_deletion s _ ?_ ?_ h
      · intro d
        exact (deletionSuccessUpd_profile did t d).1
      · intro d
        exact (deletionSuccessUpd_profile did t d).2
  | markDeletionFailed did msg t =>
    by_cases hmsg : msg = ""
    · simp only [stepCmd, applyCmd, markDeletionFailed, hmsg, if_true]
      exact h
    · cases hb : deletionAttemptActive s did with
      | false =>
        simp only [stepCmd, applyCmd, markDeletionFailed, hmsg, hb, Bool.false_eq_true,
          if_false, if_neg]
        exact h
      | true =>
        have hs : stepCmd s (Cmd.markDeletionFailed did msg t) =
            { s with deletionAttempts := s.deletionAttempts.map (deletionFailedUpd did msg t) } := by
          simp [stepCmd, applyCmd, markDeletionFailed, hmsg, hb]
        rw [hs]
        refine trackerInv_map_deletion s _ ?_ ?_ h
        · intro d
          exact (deletionFailedUpd_profile did msg t d).1
        · intro d
          exact (deletionFailedUpd_profile did msg t d).2

/-- Running any command sequence preserves the tracker invariants. -/
theorem trackerInv_run (s : TrackerState) (cs : List Cmd) (h : TrackerInv s) :
    TrackerInv (runCmds s cs) := by
  induction cs generalizing s with
  | nil => exact h
  | cons c cs ih =>
    rw [runCmds, List.foldl_cons]
    exact ih (stepCmd s c) (trackerInv_stepCmd s c h)

/-- A success transition keeps the attempt identifier. -/
theorem successUpd_id (aid t : Nat) (a : IndexAttempt) :
    (successUpd aid t a).id = a.id := by
  rcases successUpd_cases aid t a with he | ⟨_, he⟩ <;> simp [he]

/-- A success transition keeps the recorded doc count. -/
theorem successUpd_docs (aid t : Nat) (a : IndexAttempt) :
    (successUpd aid t a).num_docs_indexed = a.num_docs_indexed := by
  rcases successUpd_cases aid t a with he | ⟨_, he⟩ <;> simp [he]

/-- A failure transition keeps the attempt identifier. -/
theorem failedUpd_id (aid : Nat) (msg : String) (t : Nat) (a : IndexAttempt) :
    (failedUpd aid msg t a).id = a.id := by
  rcases failedUpd_cases aid msg t a with he | ⟨_, he⟩ <;> simp [he]

/-- A failure transition keeps the recorded doc count. -/
theorem failedUpd_docs (aid : Nat) (msg : String) (t : Nat) (a : IndexAttempt) :
    (failedUpd aid msg t a).num_docs_indexed = a.num_docs_indexed := by
  rcases failedUpd_cases aid msg t a with he | ⟨_, he⟩ <;> simp [he]

/-- Elementwise updates that keep the identifier and never lower the
count admit a non-decreasing successor for every list member. -/
theorem docs_map (l : List IndexAttempt) (f : IndexAttempt → IndexAttempt)
    (hid : ∀ a, (f a).id = a.id)
    (hdocs : ∀ a, pyOrZero a.num_docs_indexed ≤ pyOrZero (f a).num_docs_indexed)
    (a : IndexAttempt) (ha : a ∈ l) :
    ∃ a', a' ∈ l.map f ∧ a'.id = a.id ∧
      pyOrZero a.num_docs_indexed ≤ pyOrZero a'.num_docs_indexed :=
  ⟨f a, List.mem_map_of_mem f ha, hid a, hdocs a⟩

/-- One command never lowers the doc count of a recorded attempt: a
record with the same identifier and at least as large a count remains
in the history. -/
theorem docs_stepCmd (s : TrackerState) (c : Cmd) (a : IndexAttempt)
    (ha : a ∈ s.indexAttempts) :
    ∃ a', a' ∈ (stepCmd s c).indexAttempts ∧ a'.id = a.id ∧
      pyOrZero a.num_docs_indexed ≤ pyOrZero a'.num_docs_indexed := by
  cases c with
  | beginIndexing cid crid t =>
    cases hb1 : hasInProgressIndexForPairing s cid crid with
    | true =>
      simp only [stepCmd, applyCmd, beginIndexing, hb1, if_true]
      exact ⟨a, ha, rfl, Nat.le_refl _⟩
    | false =>
      cases hb2 : hasInProgressDeletion s cid with
      | true =>
        simp only [stepCmd, applyCmd, beginIndexing, hb1, hb2, Bool.false_eq_true,
          if_false, if_true]
        exact ⟨a, ha, rfl, Nat.le_refl _⟩
      | false =>
        have hs : stepCmd s (Cmd.beginIndexing cid crid t) = { s with
            indexAttempts := s.indexAttempts ++ [newIndexAttempt s cid crid t]
            nextIndexAttemptId := s.nextIndexAttemptId + 1 } := by
          simp [stepCmd, applyCmd, beginIndexing, hb1, hb2]
        rw [hs]
        exact ⟨a, List.mem_append_left _ ha, rfl, Nat.le_refl _⟩
  | updateIndexProgress aid cnt t =>
    cases hb : indexAttemptActive s aid with
    | false =>
      simp only [stepCmd, applyCmd, updateIndexProgress, hb, Bool.false_eq_true, if_false]
      exact ⟨a, ha, rfl, Nat.le_refl _⟩
    | true =>
      have hs : stepCmd s (Cmd.updateIndexProgress aid cnt t) =
          { s with indexAttempts := s.indexAttempts.map (progressUpd aid cnt t) } := by
        simp [stepCmd, applyCmd, updateIndexProgress, hb]
      rw [hs]
      exact docs_map _ _ (fun a => (progressUpd_profile aid cnt t a).2.2.1)
        (fun a => (progressUpd_profile aid cnt t a).2.2.2.2.2) a ha
  | markIndexSuccess aid t =>
    cases hb : indexAttemptActive s aid with
    | false =>
      simp only [stepCmd, applyCmd, markIndexSuccess, hb, Bool.false_eq_true, if_false]
      exact ⟨a, ha, rfl, Nat.le_refl _⟩
    | true =>
      have hs : stepCmd s (Cmd.markIndexSuccess aid t) =
          { s with indexAttempts := s.indexAttempts.map (successUpd aid t) } := by
        simp [stepCmd, applyCmd, markIndexSuccess, hb]
      rw [hs]
      exact docs_map _ _ (successUpd_id aid t)
        (fun a => by rw [successUpd_docs aid t a]) a ha
  | markIndexFailed aid msg t =>
    by_cases hmsg : msg = ""
    · simp only [stepCmd, applyCmd, markIndexFailed, hmsg, if_true]
      exact ⟨a, ha, rfl, Nat.le_refl _⟩
    · cases hb : indexAttemptActive s aid with
      | false =>
        simp only [stepCmd, applyCmd, markIndexFailed, hmsg, hb, Bool.false_eq_true,
          if_false, if_neg]
        exact ⟨a, ha, rfl, Nat.le_refl _⟩
      | true =>
        have hs : stepCmd s (Cmd.markIndexFailed aid msg t) =
            { s with indexAttempts := s.indexAttempts.map (failedUpd aid msg t) } := by
          simp [stepCmd, applyCmd, markIndexFailed, hmsg, hb]
        rw [hs]
        exact docs_map _ _ (failedUpd_id aid msg t)
          (fun a => by rw [failedUpd_docs aid msg t a]) a ha
  | beginDeletion cid t =>
    cases hb1 : hasInProgressIndexForConnector s cid with
    | true =>
      simp only [stepCmd, applyCmd, beginDeletion, hb1, if_true]
      exact ⟨a, ha, rfl, Nat.le_refl _⟩
    | false =>
      cases hb2 : hasInProgressDeletion s cid with
      | true =>
        simp only [stepCmd, applyCmd, beginDeletion, hb1, hb2, Bool.false_eq_true,
          if_false, if_true]
        exact ⟨a, ha, rfl, Nat.le_refl _⟩
      | false =>
        have hs : stepCmd s (Cmd.beginDeletion cid t) = { s with
            deletionAttempts := s.deletionAttempts ++ [newDeletionAttempt s cid t]
            nextDeletionAttemptId := s.nextDeletionAttemptId + 1 } := by
          simp [stepCmd, applyCmd, beginDeletion, hb1, hb2]
        rw [hs]
        exact ⟨a, ha, rfl, Nat.le_refl _⟩
  | updateDeletionProgress did cnt t =>
    cases hb : deletionAttemptActive s did with
    | false =>
      simp only [stepCmd, applyCmd, updateDeletionProgress, hb, Bool.false_eq_true, if_false]
      exact ⟨a, ha, rfl, Nat.le_refl _⟩
    | true =>
      have hs : stepCmd s (Cmd.updateDeletionProgress did cnt t) =
          { s with deletionAttempts := s.deletionAttempts.map (deletionProgressUpd did cnt t) } := by
        simp [stepCmd, applyCmd, updateDeletionProgress, hb]
      rw [hs]
      exact ⟨a, ha, rfl, Nat.le_refl _⟩
  | markDeletionSuccess did t =>
    cases hb : deletionAttemptActive s did with
    | false =>
      simp only [stepCmd, applyCmd, markDeletionSuccess, hb, Bool.false_eq_true, if_false]
      exact ⟨a, ha, rfl, Nat.le_refl _⟩
    | true =>
      have hs : stepCmd s (Cmd.markDeletionSuccess did t) =
          { s with deletionAttempts := s.deletionAttempts.map (deletionSuccessUpd did t) } := by
        simp [stepCmd, applyCmd, markDeletionSuccess, hb]
      rw [hs]
      exact ⟨a, ha, rfl, Nat.le_refl _⟩
  | markDeletionFailed did msg t =>
    by_cases hmsg : msg = ""
    · simp only [stepCmd, applyCmd, markDeletionFailed, hmsg, if_true]
      exact ⟨a, ha, rfl, Nat.le_refl _⟩
    · cases hb : deletionAttemptActive s did with
      | false =>
        simp only [stepCmd, applyCmd, markDeletionFailed, hmsg, hb, Bool.false_eq_true,
          if_false, if_neg]
        exact ⟨a, ha, rfl, Nat.le_refl _⟩
      | true =>
        have hs : stepCmd s (Cmd.markDeletionFailed did msg t) =
            { s with deletionAttempts := s.deletionAttempts.map (deletionFailedUpd did msg t) } := by
          simp [stepCmd, applyCmd, markDeletionFailed, hmsg, hb]
        rw [hs]
        exact ⟨a, ha, rfl, Nat.le_refl _⟩

/-- Across any command sequence the doc count of a recorded attempt
never decreases. -/
theorem docs_runCmds (s : TrackerState) (cs : List Cmd) (a : IndexAttempt)
    (ha : a ∈ s.indexAttempts) :
    ∃ a', a' ∈ (runCmds s cs).indexAttempts ∧ a'.id = a.id ∧
      pyOrZero a.num_docs_indexed ≤ pyOrZero a'.num_docs_indexed := by
  induction cs generalizing s a with
  | nil => exact ⟨a, ha, rfl, Nat.le_refl _⟩
  | cons c cs ih =>
    obtain ⟨a1, ha1, hid1, hle1⟩ := docs_stepCmd s c a ha
    obtain ⟨a2, ha2, hid2, hle2⟩ := ih (stepCmd s c) a1 ha1
    rw [runCmds, List.foldl_cons]
    exact ⟨a2, ha2, hid2.trans hid1, hle1.trans hle2⟩

/-- A successful failure transition keeps identifier and doc count of
every recorded attempt. -/
theorem markFailed_retains (s : TrackerState) (aid : Nat) (msg : String) (t : Nat)
    (s2 : TrackerState) (hok : markIndexFailed s aid msg t = Except.ok s2)
    (a : IndexAttempt) (ha : a ∈ s.indexAttempts) :
    ∃ a', a' ∈ s2.indexAttempts ∧ a'.id = a.id ∧
      a'.num_docs_indexed = a.num_docs_indexed := by
  unfold markIndexFailed at hok
  split at hok
  · exact Except.noConfusion hok
  · split at hok
    · injection hok with hok
      subst hok
      exact ⟨failedUpd aid msg t a, List.mem_map_of_mem _ ha,
        failedUpd_id aid msg t a, failedUpd_docs aid msg t a⟩
    · exact Except.noConfusion hok

/-- Claim C4: at most one index attempt per pairing is ever in
progress in any reachable tracker state, and starting a second attempt
on a pairing with an in-progress attempt fails with Conflict and
leaves the state, hence the set of in-progress attempts, unchanged. -/
theorem c4 (cs : List Cmd) (cid crid t : Nat) :
    pairingInProgressCount (runCmds initState cs) cid crid ≤ 1 ∧
    (hasInProgressIndexForPairing (runCmds initState cs) cid crid = true →
      beginIndexing (runCmds initState cs) cid crid t = Except.error OpError.conflict ∧
      runCmds initState (cs ++ [Cmd.beginIndexing cid crid t]) = runCmds initState cs) := by
  constructor
  · exact (trackerInv_run initState cs trackerInv_init).1 cid crid
  · intro hip
    constructor
    · unfold beginIndexing
      rw [if_pos hip]
    · rw [runCmds, List.foldl_append, List.foldl_cons, List.foldl_nil]
      show stepCmd (runCmds initState cs) (Cmd.beginIndexing cid crid t) =
        runCmds initState cs
      simp [stepCmd, applyCmd, beginIndexing, hip]

/-- Witness for c4: after one beginIndexing on pairing (0, 1) the
pairing is in progress and a second beginIndexing conflicts without
changing the state. -/
theorem c4_witness :
    hasInProgressIndexForPairing (runCmds initState [Cmd.beginIndexing 0 1 5]) 0 1 = true ∧
    (beginIndexing (runCmds initState [Cmd.beginIndexing 0 1 5]) 0 1 9 =
        Except.error OpError.conflict ∧
      runCmds initState ([Cmd.beginIndexing 0 1 5] ++ [Cmd.beginIndexing 0 1 9]) =
        runCmds initState [Cmd.beginIndexing 0 1 5]) :=
  ⟨by decide, (c4 [Cmd.beginIndexing 0 1 5] 0 1 9).2 (by decide)⟩

/-- Claim C5: in every reachable tracker state no connector has an
in-progress deletion together with an in-progress index attempt on one
of its pairings; beginDeletion conflicts while an index attempt of the
connector is in progress, and beginIndexing conflicts while a deletion
of the owning connector is in progress. -/
theorem c5 (cs : List Cmd) (cid crid t td : Nat) :
    ¬(hasInProgressIndexForConnector (runCmds initState cs) cid = true ∧
      hasInProgressDeletion (runCmds initState cs) cid = true) ∧
    (hasInProgressIndexForConnector (runCmds initState cs) cid = true →
      beginDeletion (runCmds initState cs) cid td = Except.error OpError.conflict) ∧
    (hasInProgressDeletion (runCmds initState cs) cid = true →
      beginIndexing (runCmds initState cs) cid crid t = Except.error OpError.conflict) := by
  refine ⟨(trackerInv_run initState cs trackerInv_init).2.1 cid, ?_, ?_⟩
  · intro hidx
    unfold beginDeletion
    rw [if_pos hidx]
  · intro hdel
    unfold beginIndexing
    cases hb : hasInProgressIndexForPairing (runCmds initState cs) cid crid with
    | true => simp
    | false => simp [hb, hdel]

/-- Witness for c5: with pairing (0, 1) in progress, beginDeletion on
connector 0 conflicts. -/
theorem c5_witness :
    hasInProgressIndexForConnector (runCmds initState [Cmd.beginIndexing 0 1 5]) 0 = true ∧
    beginDeletion (runCmds initState [Cmd.beginIndexing 0 1 5]) 0 9 =
      Except.error OpError.conflict :=
  ⟨by decide, (c5 [Cmd.beginIndexing 0 1 5] 0 1 9 9).2.1 (by decide)⟩

/-- Claim C7: for any recorded attempt, arbitrary further update
sequences only produce a record with the same identifier and a doc
count at least as large, and a successful failure transition keeps the
doc count exactly (partial progress preserved). -/
theorem c7 (s : TrackerState) (cs : List Cmd) (a : IndexAttempt)
    (ha : a ∈ s.indexAttempts) :
    (∃ a', a' ∈ (runCmds s cs).indexAttempts ∧ a'.id = a.id ∧
      pyOrZero a.num_docs_indexed ≤ pyOrZero a'.num_docs_indexed) ∧
    (∀ aid msg t s2, markIndexFailed s aid msg t = Except.ok s2 →
      ∃ a', a' ∈ s2.indexAttempts ∧ a'.id = a.id ∧
        a'.num_docs_indexed = a.num_docs_indexed) := by
  constructor
  · exact docs_runCmds s cs a ha
  · intro aid msg t s2 hok
    exact markFailed_retains s aid msg t s2 hok a ha

/-- Witness for c7 at the in-progress attempt aFreshEx, a progress
update to count 50, and a failure transition. -/
theorem c7_witness :
    aFreshEx ∈ sFreshEx.indexAttempts ∧
    markIndexFailed sFreshEx 3 "down" 7 = Except.ok sFailEx2 ∧
    ((∃ a', a' ∈ (runCmds sFreshEx [Cmd.updateIndexProgress 3 50 6]).indexAttempts ∧
        a'.id = aFreshEx.id ∧
        pyOrZero aFreshEx.num_docs_indexed ≤ pyOrZero a'.num_docs_indexed) ∧
      (∃ a', a' ∈ sFailEx2.indexAttempts ∧ a'.id = aFreshEx.id ∧
        a'.num_docs_indexed = aFreshEx.num_docs_indexed)) :=
  ⟨by decide, rfl,
    (c7 sFreshEx [Cmd.updateIndexProgress 3 50 6] aFreshEx (by decide)).1,
    (c7 sFreshEx [Cmd.updateIndexProgress 3 50 6] aFreshEx (by decide)).2 3 "down" 7
      sFailEx2 rfl⟩

/-- Claim C8: in every reachable tracker state an index attempt
carries an error message exactly when its status is failed, and the
message is then non-empty. -/
theorem c8 (cs : List Cmd) (a : IndexAttempt)
    (ha : a ∈ (runCmds initState cs).indexAttempts) :
    (a.error_msg ≠ none ↔ a.status = IndexingStatus.failed) ∧
    ∀ m, a.error_msg = some m → m ≠ "" :=
  (trackerInv_run initState cs trackerInv_init).2.2 a ha

/-- Witness for c8 at the attempt started on pairing (0, 0) and failed
with message boom. -/
theorem c8_witness :
    aFailedEx ∈
      (runCmds initState [Cmd.beginIndexing 0 0 0,
        Cmd.markIndexFailed 0 "boom" 1]).indexAttempts ∧
    ((aFailedEx.error_msg ≠ none ↔ aFailedEx.status = IndexingStatus.failed) ∧
      ∀ m, aFailedEx.error_msg = some m → m ≠ "") :=
  ⟨by decide,
    c8 [Cmd.beginIndexing 0 0 0, Cmd.markIndexFailed 0 "boom" 1] aFailedEx (by decide)⟩

end Danswer
